import Mathlib

/-!
Verification development for the knowledge-graph query orchestration engine
of this repository (llama_index vendored sources).

Shallow embedding: the Python classes and functions under
`llama_index/query_engine/knowledge_graph_query_engine.py`,
`llama_index/llm_predictor/mock.py` and `llama_index/llms/mock.py`
are translated into executable Lean definitions.  Machine-level details
that Python abstracts away (garbage collection, object identity) are
dropped; exceptions are modelled with `Except`, mutable callback-manager
state with explicit state passing, and Python `None` with `Option`.
-/

/-- Python values appearing as keyword-argument values in the sources we
embed: only strings and integers occur. -/
inductive PyVal where
  | str (s : String)
  | int (n : Int)
deriving DecidableEq, Repr

/-- Python `str()` conversion for the values above, as used by `str.format`
substitution. -/
def PyVal.toStr : PyVal → String
  | .str s => s
  | .int n => toString n

/-- Lookup in a Python keyword-argument dictionary (modelled as an
association list with distinct keys). -/
def pyLookup (args : List (String × PyVal)) (k : String) : Option PyVal :=
  (args.find? (fun p => p.1 = k)).map (fun p => p.2)

/-- `d[k]` on a string-valued entry: raises `KeyError` when the key is
absent and `TypeError` when the value is not a string (it would be fed to
a function expecting text). -/
def pyGetStr (args : List (String × PyVal)) (k : String) : Except String String :=
  match pyLookup args k with
  | none => .error "KeyError"
  | some (.str s) => .ok s
  | some (.int _) => .error "TypeError"

/-- `d[k]` on an integer-valued entry. -/
def pyGetInt (args : List (String × PyVal)) (k : String) : Except String Int :=
  match pyLookup args k with
  | none => .error "KeyError"
  | some (.int n) => .ok n
  | some (.str _) => .error "TypeError"

/-- Python `" ".join([w] * n)`. -/
def joinReplicate (w : String) (n : Nat) : String :=
  String.intercalate " " (List.replicate n w)

/-! ### String formatting

Modelled from the spec: "PromptTemplate — immutable text pattern with
named substitution slots"; the template-rendering mechanism
(`llama_index.prompts.base.Prompt.format`, absent from the sources) fills
each `\x7bname\x7d` slot with the named argument.  We implement the
single-pass semantics of Python `str.format` restricted to plain named
slots (the only form the embedded templates use): substituted values are
inserted verbatim and never rescanned, and a missing key is a `KeyError`.
-/

/-- One left-to-right pass over the template characters.  `acc = none`
means we are reading literal text; `acc = some key` means we are inside a
slot and `key` holds the (reversed) slot-name characters read so far. -/
def pyFormatAux (args : List (String × String)) :
    Option (List Char) → List Char → Option (List Char)
  | none, [] => some []
  | some _, [] => none
  | none, '\x7b' :: rest => pyFormatAux args (some []) rest
  | none, c :: rest => (pyFormatAux args none rest).map (fun l => c :: l)
  | some key, '\x7d' :: rest =>
      match (args.find? (fun p => p.1 = String.mk key.reverse)).map (fun p => p.2) with
      | none => none
      | some v =>
          (pyFormatAux args none rest).map (fun l => v.data ++ l)
  | some key, c :: rest => pyFormatAux args (some (c :: key)) rest

/-- Python `template.format(**args)` (plain named slots only): `none`
models a raised `KeyError`/`ValueError`. -/
def pyFormat (template : String) (args : List (String × String)) : Option String :=
  (pyFormatAux args none template.data).map String.mk

/-! ### MockLLM (`llama_index/llms/mock.py`) -/

/-- `CompletionResponse` as used by `MockLLM.complete`: only the `text`
field is set. -/
structure CompletionResponse where
  text : String
deriving DecidableEq, Repr

/-- `MockLLM`: the one field set in `__init__` (`max_tokens: Optional[int]`). -/
structure MockLLM where
  max_tokens : Option Int
deriving DecidableEq, Repr

namespace MockLLM

/-- `MockLLM._generate_text`: `" ".join(["text" for _ in range(length)])`;
Python `range` is empty for non-positive lengths, hence `Int.toNat`. -/
def generate_text (_m : MockLLM) (length : Int) : String :=
  joinReplicate "text" length.toNat

/-- Python truthiness of `self.max_tokens`: `None` and `0` are falsy. -/
def maxTokensTruthy (m : MockLLM) : Bool :=
  match m.max_tokens with
  | none => false
  | some n => n ≠ 0

/-- `MockLLM.complete`:
`response_text = self._generate_text(self.max_tokens) if self.max_tokens else prompt`. -/
def complete (m : MockLLM) (prompt : String) : CompletionResponse :=
  { text := if m.maxTokensTruthy then m.generate_text (m.max_tokens.getD 0) else prompt }

end MockLLM

/-! ### Prompts (`llama_index/prompts`)

The prompt module itself is absent from the sources; only its use sites
are present.  We model the parts those use sites touch. -/

/-- Prompt kinds (`PromptType`).  Modelled from the spec: the enumeration
module is absent from the sources; the constructors cover every kind the
embedded sources mention (`mock.py`'s dispatch and the two prompts of the
query engine) together with further kinds of the library's closed
enumeration that the mock predictor does not handle. -/
inductive PromptType where
  | summary
  | tree_insert
  | tree_select
  | tree_select_multiple
  | refine
  | question_answer
  | keyword_extract
  | query_keyword_extract
  | knowledge_triplet_extract
  | custom
  | text_to_graph_query
  | text_to_sql
  | schema_extract
  | simple_input
deriving DecidableEq, Repr

/-- Modelled from the spec: a `Prompt` is an immutable template text with
named substitution slots, tagged with its kind, plus the partial
substitutions installed ahead of time (`partial_dict`, written
`partialDict` here). -/
structure Prompt where
  template : String
  prompt_type : PromptType
  partialDict : List (String × PyVal) := []

/-- Modelled from the spec: `Prompt.format(**kwargs)` renders the template
with the call's substitutions merged over the prompt's partial ones
(call arguments win); a missing slot name raises. -/
def Prompt.format (p : Prompt) (args : List (String × PyVal)) : Option String :=
  pyFormat p.template ((args ++ p.partialDict).map (fun q => (q.1, q.2.toStr)))

/-! ### MockLLMPredictor (`llama_index/llm_predictor/mock.py`)

The predictor's own callback manager is constructed as
`CallbackManager([])` in `__init__` — an empty handler list of its own,
distinct from the engine's — so `_log_start`/`_log_end` have no
observable effect and are noted but not modelled as state.  The helpers
it calls from `llama_index.utils` and `llama_index.token_counter.utils`
are external collaborators, passed in as functions. -/

/-- External collaborators of `mock.py`: `globals_helper.tokenizer`,
`mock_extract_keywords_response` and `mock_extract_kg_triplets_response`
(the last takes the raw `max_triplets` value it is handed). -/
structure MockEnv where
  tokenizer : String → List String
  extractKeywords : String → String
  extractTriplets : String → PyVal → String

/-- `_mock_summary_predict`. -/
def mock_summary_predict (env : MockEnv) (max_tokens : Int)
    (prompt_args : List (String × PyVal)) : Except String String := do
  let ctx ← pyGetStr prompt_args "context_str"
  let token_limit : Int := min ((env.tokenizer ctx).length : Int) max_tokens
  pure (joinReplicate "summary" token_limit.toNat)

/-- `_mock_insert_predict`. -/
def mock_insert_predict : String := "ANSWER: 1"

/-- `_mock_query_select`. -/
def mock_query_select : String := "ANSWER: 1"

/-- `_mock_query_select_multiple`. -/
def mock_query_select_multiple (num_chunks : Int) : String :=
  "ANSWER: " ++ String.intercalate ", " ((List.range num_chunks.toNat).map toString)

/-- `_mock_answer`. -/
def mock_answer (env : MockEnv) (max_tokens : Int)
    (prompt_args : List (String × PyVal)) : Except String String := do
  let ctx ← pyGetStr prompt_args "context_str"
  let token_limit : Int := min ((env.tokenizer ctx).length : Int) max_tokens
  pure (joinReplicate "answer" token_limit.toNat)

/-- `_mock_refine`. -/
def mock_refine (env : MockEnv) (max_tokens : Int) (prompt : Prompt)
    (prompt_args : List (String × PyVal)) : Except String String := do
  let existing_answer ←
    if (pyLookup prompt_args "existing_answer").isNone then
      pyGetStr prompt.partialDict "existing_answer"
    else
      pyGetStr prompt_args "existing_answer"
  let ctx ← pyGetStr prompt_args "context_msg"
  let token_limit : Int :=
    min (((env.tokenizer ctx).length + (env.tokenizer existing_answer).length : Nat) : Int)
      max_tokens
  pure (joinReplicate "answer" token_limit.toNat)

/-- `_mock_keyword_extract`. -/
def mock_keyword_extract (env : MockEnv)
    (prompt_args : List (String × PyVal)) : Except String String := do
  let t ← pyGetStr prompt_args "text"
  pure (env.extractKeywords t)

/-- `_mock_query_keyword_extract`. -/
def mock_query_keyword_extract (env : MockEnv)
    (prompt_args : List (String × PyVal)) : Except String String := do
  let q ← pyGetStr prompt_args "question"
  pure (env.extractKeywords q)

/-- `_mock_knowledge_graph_triplet_extract`. -/
def mock_knowledge_graph_triplet_extract (env : MockEnv)
    (prompt_args : List (String × PyVal)) (max_triplets : PyVal) :
    Except String String := do
  let t ← pyGetStr prompt_args "text"
  pure (env.extractTriplets t max_triplets)

/-- `MockLLMPredictor`: the one behaviour-relevant field set in `__init__`
(`max_tokens`, defaulting to the external constant `DEFAULT_NUM_OUTPUTS`);
its `callback_manager` is its own empty `CallbackManager([])`. -/
structure MockLLMPredictor where
  max_tokens : Int

namespace MockLLMPredictor

/-- `MockLLMPredictor.predict`: logs a start event to its own empty
callback manager (no observable effect), renders the formatted prompt
(which can raise on a missing slot name), dispatches on the prompt kind,
and raises `ValueError("Invalid prompt type.")` on any unhandled kind. -/
def predict (env : MockEnv) (m : MockLLMPredictor) (prompt : Prompt)
    (prompt_args : List (String × PyVal)) : Except String String := do
  let _formatted_prompt ← match prompt.format prompt_args with
    | none => Except.error "KeyError"
    | some s => Except.ok s
  let output ← match prompt.prompt_type with
    | .summary => mock_summary_predict env m.max_tokens prompt_args
    | .tree_insert => pure mock_insert_predict
    | .tree_select => pure mock_query_select
    | .tree_select_multiple => do
        let n ← pyGetInt prompt_args "num_chunks"
        pure (mock_query_select_multiple n)
    | .refine => mock_refine env m.max_tokens prompt prompt_args
    | .question_answer => mock_answer env m.max_tokens prompt_args
    | .keyword_extract => mock_keyword_extract env prompt_args
    | .query_keyword_extract => mock_query_keyword_extract env prompt_args
    | .knowledge_triplet_extract =>
        mock_knowledge_graph_triplet_extract env prompt_args
          ((pyLookup prompt.partialDict "max_knowledge_triplets").getD (.int 2))
    | .custom => pure ""
    | _ => Except.error "Invalid prompt type."
  -- `_log_end` sends to the same empty callback manager: no observable effect.
  pure output

/-- `MockLLMPredictor.apredict`: `return self.predict(prompt, **prompt_args)`. -/
def apredict (env : MockEnv) (m : MockLLMPredictor) (prompt : Prompt)
    (prompt_args : List (String × PyVal)) : Except String String :=
  predict env m prompt prompt_args

end MockLLMPredictor

/-! ### Knowledge graph query engine
(`llama_index/query_engine/knowledge_graph_query_engine.py`) -/

/-- `DEFAULT_NEBULAGRAPH_NL2CYPHER_PROMPT_TMPL` (verbatim; braces and
apostrophes written as character escapes). -/
def DEFAULT_NEBULAGRAPH_NL2CYPHER_PROMPT_TMPL : String :=
  "\nGenerate NebulaGraph query from natural language.\nUse only the provided relationship types and properties in the schema.\nDo not use any other relationship types or properties that are not provided.\nSchema:\n---\n\x7bschema\x7d\n---\nNote: NebulaGraph speaks a dialect of Cypher, comparing to standard Cypher:\n\n1. it uses double equals sign for comparison: `==` rather than `=`\n2. it needs explicit label specification when referring to node properties, i.e.\nv is a variable of a node, and we know its label is Foo, v.`foo`.name is correct\nwhile v.name is not.\n\nFor example, see this diff between standard and NebulaGraph Cypher dialect:\n```diff\n< MATCH (p:person)-[:directed]->(m:movie) WHERE m.name = \x27The Godfather\x27\n< RETURN p.name;\n---\n> MATCH (p:`person`)-[:directed]->(m:`movie`) WHERE m.`movie`.`name` == \x27The Godfather\x27\n> RETURN p.`person`.`name`;\n```\n\nQuestion: \x7bquery_str\x7d\n\nNebulaGraph Cypher dialect query:\n"

/-- `DEFAULT_NEBULAGRAPH_NL2CYPHER_PROMPT`. -/
def DEFAULT_NEBULAGRAPH_NL2CYPHER_PROMPT : Prompt :=
  { template := DEFAULT_NEBULAGRAPH_NL2CYPHER_PROMPT_TMPL
    prompt_type := .text_to_graph_query }

/-- `DEFAULT_KG_RESPONSE_ANSWER_PROMPT_TMPL` (verbatim; braces written as
character escapes; note the trailing space after `Response:`). -/
def DEFAULT_KG_RESPONSE_ANSWER_PROMPT_TMPL : String :=
  "\nThe original question is given below.\nThis question has been translated into a Graph Database query.\nBoth the Graph query and the response are given below.\nGiven the Graph Query response, synthesise a response to the original question.\n\nOriginal question: \x7bquery_str\x7d\nGraph query: \x7bkg_query_str\x7d\nGraph response: \x7bkg_response_str\x7d\nResponse: \n"

/-- `DEFAULT_KG_RESPONSE_ANSWER_PROMPT`. -/
def DEFAULT_KG_RESPONSE_ANSWER_PROMPT : Prompt :=
  { template := DEFAULT_KG_RESPONSE_ANSWER_PROMPT_TMPL
    prompt_type := .question_answer }

/-- Modelled from the spec: `GraphStoreType` (`GraphBackendKind`), the
closed enumeration of backend kinds; its module
(`llama_index.graph_stores.registery`) is absent from the sources.  The
spec requires at least one kind with a registered dialect template
(NebulaGraph, per the default prompt map in the engine source) and allows
kinds without one. -/
inductive GraphStoreType where
  | nebula
  | simple
deriving DecidableEq, Repr

/-- `DEFAULT_NL2GRAPH_PROMPT_MAP`: the dialect prompt registry defined in
the engine source; only the NebulaGraph kind is registered. -/
def DEFAULT_NL2GRAPH_PROMPT_MAP : List (GraphStoreType × Prompt) :=
  [(.nebula, DEFAULT_NEBULAGRAPH_NL2CYPHER_PROMPT)]

/-- The graph backend capability as the engine consumes it:
`get_schema(refresh) -> str` and `query(text) -> str` (the latter may
raise).  `className` stands for the Python `__class__` used as the key
into the class-to-kind registry. -/
structure GraphStore where
  className : String
  get_schema : Bool → String
  query : String → Except String String

/-- `StorageContext` as the engine consumes it: the `graph_store` binding,
possibly absent. -/
structure StorageContext where
  graph_store : Option GraphStore

/-- `QueryBundle` as the engine consumes it: the question string. -/
structure QueryBundle where
  query_str : String
deriving DecidableEq, Repr

/-- Modelled from the spec: the evidence unit's inner text node
(`llama_index.schema.TextNode`, whose module is absent from the sources).
It holds the assembled text and the metadata package. -/
structure TextNode where
  text : String
  metadata : List (String × String)
deriving DecidableEq, Repr

/-- Modelled from the spec: the `TextNode(...)` validating constructor
accepts keyword arguments and discards any keyword that is not a declared
field of the node — in particular the `score` keyword the engine source
passes, since the text node declares no score field (the confidence score
belongs to the scored wrapper). -/
def TextNode.ofKwargs (text : String) (_score : Option ℚ)
    (metadata : List (String × String)) : TextNode :=
  { text := text, metadata := metadata }

/-- Modelled from the spec: `NodeWithScore`, the scored evidence unit
(`EvidenceUnit`) handed to answer synthesis — a node together with its
optional confidence score, which is absent unless supplied to this
wrapper's constructor. -/
structure NodeWithScore where
  node : TextNode
  score : Option ℚ := none
deriving DecidableEq, Repr

/-- Modelled from the spec: the span kinds the engine opens
(`CBEventType.QUERY` and `CBEventType.RETRIEVE`; the callbacks module is
absent from the sources). -/
inductive CBEventType where
  | query
  | retrieve
deriving DecidableEq, Repr

/-- Modelled from the spec: the payload keys the engine uses
(`EventPayload.QUERY_STR`, `EventPayload.RESPONSE`). -/
inductive EventPayloadKey where
  | query_str
  | response
deriving DecidableEq, Repr

/-- One record emitted by the event sink: a span open or a span close,
with its kind, payload and correlation id. -/
inductive TraceEvent where
  | eventStart (t : CBEventType) (payload : List (EventPayloadKey × String)) (id : Nat)
  | eventEnd (t : CBEventType) (payload : List (EventPayloadKey × String)) (id : Nat)
deriving DecidableEq, Repr

/-- Modelled from the spec: the callback manager (event sink) state — the
events recorded so far and a counter producing fresh opaque correlation
ids (`onEventStart(kind, payload) -> id`). -/
structure CBState where
  next_id : Nat
  events : List TraceEvent
deriving DecidableEq, Repr

/-- Modelled from the spec: `on_event_start` opens an event record,
returning a fresh opaque id. -/
def CBState.on_event_start (st : CBState) (t : CBEventType)
    (payload : List (EventPayloadKey × String)) : Nat × CBState :=
  (st.next_id,
    { next_id := st.next_id + 1
      events := st.events ++ [.eventStart t payload st.next_id] })

/-- Modelled from the spec: `on_event_end` closes the record identified by
the id presented. -/
def CBState.on_event_end (st : CBState) (t : CBEventType)
    (payload : List (EventPayloadKey × String)) (id : Nat) : CBState :=
  { st with events := st.events ++ [.eventEnd t payload id] }

/-- The engine state after a successful `__init__`: the graph store and its
kind, the cached schema snapshot, the two resolved prompts, and the
consumed capabilities (the service context's LLM predictor pair and the
response synthesizer pair), as function fields. -/
structure KnowledgeGraphQueryEngine where
  graph_store : GraphStore
  graph_store_type : GraphStoreType
  graph_schema : String
  graph_query_synthesis_prompt : Prompt
  graph_response_answer_prompt : Prompt
  predict : Prompt → List (String × PyVal) → Except String String
  apredict : Prompt → List (String × PyVal) → Except String String
  synthesize : QueryBundle → List NodeWithScore → Except String String
  asynthesize : QueryBundle → List NodeWithScore → Except String String

/-- Construction-time failures of `KnowledgeGraphQueryEngine.__init__`:
the two `assert` statements and the two dictionary lookups that can raise
`KeyError` (the spec's `ConfigurationError`). -/
inductive ConfigError where
  | missingStorageContext
  | missingGraphStore
  | unregisteredGraphStoreClass (className : String)
  | missingDialectPrompt (t : GraphStoreType)
deriving DecidableEq, Repr

namespace KnowledgeGraphQueryEngine

/-- `KnowledgeGraphQueryEngine.__init__`, in source order: assert the
storage context and its graph store, look the store's class up in
`GRAPH_STORE_CLASS_TO_GRAPH_STORE_TYPE` (passed in as `registry`, since
its module is absent from the sources), fetch the schema with the refresh
flag, then resolve the query-synthesis prompt (the supplied one, else the
default map entry for the store kind) and the response-answer prompt.
`llm_predict`/`llm_apredict` stand for the service context's LLM
predictor, `synth`/`asynth` for the (supplied or default) response
synthesizer. -/
def init (registry : List (String × GraphStoreType))
    (llm_predict llm_apredict : Prompt → List (String × PyVal) → Except String String)
    (synth asynth : QueryBundle → List NodeWithScore → Except String String)
    (storage_context : Option StorageContext)
    (graph_query_synthesis_prompt : Option Prompt)
    (graph_response_answer_prompt : Option Prompt)
    (refresh_schema : Bool) :
    Except ConfigError KnowledgeGraphQueryEngine :=
  match storage_context with
  | none => .error ConfigError.missingStorageContext
  | some sc =>
    match sc.graph_store with
    | none => .error ConfigError.missingGraphStore
    | some gs =>
      match (registry.find? (fun p => p.1 = gs.className)).map (fun p => p.2) with
      | none => .error (ConfigError.unregisteredGraphStoreClass gs.className)
      | some gst =>
        let schema := gs.get_schema refresh_schema
        match graph_query_synthesis_prompt, (DEFAULT_NL2GRAPH_PROMPT_MAP.find?
            (fun p => p.1 = gst)).map (fun p => p.2) with
        | none, none => .error (ConfigError.missingDialectPrompt gst)
        | none, some dp =>
          .ok
            { graph_store := gs
              graph_store_type := gst
              graph_schema := schema
              graph_query_synthesis_prompt := dp
              graph_response_answer_prompt :=
                graph_response_answer_prompt.getD DEFAULT_KG_RESPONSE_ANSWER_PROMPT
              predict := llm_predict
              apredict := llm_apredict
              synthesize := synth
              asynthesize := asynth }
        | some qsp, _ =>
          .ok
            { graph_store := gs
              graph_store_type := gst
              graph_schema := schema
              graph_query_synthesis_prompt := qsp
              graph_response_answer_prompt :=
                graph_response_answer_prompt.getD DEFAULT_KG_RESPONSE_ANSWER_PROMPT
              predict := llm_predict
              apredict := llm_apredict
              synthesize := synth
              asynthesize := asynth }

/-- `generate_query`: call the predictor on the synthesis prompt with the
question and the cached schema; return its output. -/
def generate_query (e : KnowledgeGraphQueryEngine) (query_str : String) :
    Except String String :=
  e.predict e.graph_query_synthesis_prompt
    [("query_str", .str query_str), ("schema", .str e.graph_schema)]

/-- `agenerate_query`: the asynchronous twin, through `apredict`. -/
def agenerate_query (e : KnowledgeGraphQueryEngine) (query_str : String) :
    Except String String :=
  e.apredict e.graph_query_synthesis_prompt
    [("query_str", .str query_str), ("schema", .str e.graph_schema)]

/-- The evidence-unit assembly inlined in `_query`/`_aquery`: format the
response-answer prompt with the three substitutions, then build
`NodeWithScore(node=TextNode(text=prompt_string, score=1.0, metadata=...))`
— the `score` keyword goes to the inner `TextNode` constructor, and no
score is supplied to the `NodeWithScore` wrapper.  `none` models the
`KeyError` a custom answer prompt with a foreign slot name would raise. -/
def evidence_node (e : KnowledgeGraphQueryEngine)
    (query_str graph_store_query graph_store_response : String) :
    Option NodeWithScore :=
  (e.graph_response_answer_prompt.format
      [("query_str", .str query_str),
        ("kg_query_str", .str graph_store_query),
        ("kg_response_str", .str graph_store_response)]).map
    fun prompt_string =>
      { node := TextNode.ofKwargs prompt_string (some 1)
          [("query_str", query_str),
            ("graph_store_query", graph_store_query),
            ("graph_store_response", graph_store_response),
            ("graph_schema", e.graph_schema)] }

/-- `_query`, hand-compiled with explicit state passing and exception
propagation.  Source order: open the QUERY span; generate the graph
query; open the RETRIEVE span; run the backend query; close the RETRIEVE
span; assemble the evidence node; synthesize; close the QUERY span.  A
raised exception at any stage propagates immediately — the source has no
handler — leaving the events recorded so far as they are.  (`verbose`
printing and `logger.info` are I/O side channels with no bearing on
state, not modelled.) -/
def query (e : KnowledgeGraphQueryEngine) (query_bundle : QueryBundle)
    (st : CBState) : Except String String × CBState :=
  let (query_id, st) := st.on_event_start .query [(.query_str, query_bundle.query_str)]
  match e.generate_query query_bundle.query_str with
  | .error err => (.error err, st)
  | .ok graph_store_query =>
    let (retrieve_id, st) := st.on_event_start .retrieve [(.query_str, graph_store_query)]
    match e.graph_store.query graph_store_query with
    | .error err => (.error err, st)
    | .ok graph_store_response =>
      let st := st.on_event_end .retrieve [(.response, graph_store_response)] retrieve_id
      match e.evidence_node query_bundle.query_str graph_store_query graph_store_response with
      | none => (.error "KeyError", st)
      | some node =>
        match e.synthesize query_bundle [node] with
        | .error err => (.error err, st)
        | .ok response =>
          let st := st.on_event_end .query [(.response, response)] query_id
          (.ok response, st)

/-- `_aquery`, hand-compiled the same way: textually the same pipeline
with `agenerate_query` (hence `apredict`) and `asynthesize` in place of
their synchronous twins; the backend call is the same blocking
`graph_store.query` (the source notes it is not yet async). -/
def aquery (e : KnowledgeGraphQueryEngine) (query_bundle : QueryBundle)
    (st : CBState) : Except String String × CBState :=
  let (query_id, st) := st.on_event_start .query [(.query_str, query_bundle.query_str)]
  match e.agenerate_query query_bundle.query_str with
  | .error err => (.error err, st)
  | .ok graph_store_query =>
    let (retrieve_id, st) := st.on_event_start .retrieve [(.query_str, graph_store_query)]
    match e.graph_store.query graph_store_query with
    | .error err => (.error err, st)
    | .ok graph_store_response =>
      let st := st.on_event_end .retrieve [(.response, graph_store_response)] retrieve_id
      match e.evidence_node query_bundle.query_str graph_store_query graph_store_response with
      | none => (.error "KeyError", st)
      | some node =>
        match e.asynthesize query_bundle [node] with
        | .error err => (.error err, st)
        | .ok response =>
          let st := st.on_event_end .query [(.response, response)] query_id
          (.ok response, st)

end KnowledgeGraphQueryEngine

/-- Modelled from the spec: the production completion capability
(`LLMPredictor.predict`, absent from the sources): substitute the named
slots of the template with the call's arguments, invoke the LLM
completion on the filled text, and return its raw text output
unmodified. -/
def llmPredict (complete : String → Except String String) (p : Prompt)
    (args : List (String × PyVal)) : Except String String := do
  let filled ← match p.format args with
    | none => Except.error "KeyError"
    | some s => Except.ok s
  complete filled

/-! ### Trace inspection helpers -/

/-- Whether a trace record is a span open of the given kind. -/
def TraceEvent.isOpenOf (k : CBEventType) : TraceEvent → Bool
  | .eventStart t _ _ => t = k
  | .eventEnd _ _ _ => false

/-- Whether a trace record is a span close of the given kind. -/
def TraceEvent.isCloseOf (k : CBEventType) : TraceEvent → Bool
  | .eventStart _ _ _ => false
  | .eventEnd t _ _ => t = k

/-- Whether a trace record is a span close (of any kind). -/
def TraceEvent.isClose : TraceEvent → Bool
  | .eventStart _ _ _ => false
  | .eventEnd _ _ _ => true

/-- The correlation ids of the opens of the given kind, in trace order. -/
def opensIds (tr : List TraceEvent) (k : CBEventType) : List Nat :=
  tr.filterMap fun ev =>
    match ev with
    | .eventStart t _ i => if t = k then some i else none
    | .eventEnd _ _ _ => none

/-- The correlation ids presented by the closes of the given kind, in
trace order. -/
def closesIds (tr : List TraceEvent) (k : CBEventType) : List Nat :=
  tr.filterMap fun ev =>
    match ev with
    | .eventStart _ _ _ => none
    | .eventEnd t _ i => if t = k then some i else none

/-! ### Concrete fixtures (deterministic collaborators for witnesses) -/

/-- A deterministic NebulaGraph-kind store fixture whose backend execution
succeeds. -/
def okStore : GraphStore :=
  { className := "NebulaGraphStore"
    get_schema := fun refresh => if refresh then "SCHEMA-R" else "SCHEMA"
    query := fun _ => .ok "RES" }

/-- The same store fixture with a failing backend execution. -/
def failStore : GraphStore :=
  { className := "NebulaGraphStore"
    get_schema := fun refresh => if refresh then "SCHEMA-R" else "SCHEMA"
    query := fun _ => .error "boom" }

/-- The class-to-kind registry fixture
(`GRAPH_STORE_CLASS_TO_GRAPH_STORE_TYPE`). -/
def wRegistry : List (String × GraphStoreType) :=
  [("NebulaGraphStore", .nebula), ("SimpleGraphStore", .simple)]

/-- A store fixture of a registered kind that has no dialect prompt
template registered for it. -/
def simpleStore : GraphStore :=
  { className := "SimpleGraphStore"
    get_schema := fun _ => ""
    query := fun _ => .ok "" }

/-- A store fixture whose class is not in the class-to-kind registry. -/
def fancyStore : GraphStore :=
  { className := "FancyGraphStore"
    get_schema := fun _ => ""
    query := fun _ => .ok "" }

/-- A fully deterministic engine fixture: fixed generated query, fixed
backend result, fixed synthesized answer, identical sync and async
capabilities. -/
def wEngine : KnowledgeGraphQueryEngine :=
  { graph_store := okStore
    graph_store_type := .nebula
    graph_schema := "SCHEMA"
    graph_query_synthesis_prompt := DEFAULT_NEBULAGRAPH_NL2CYPHER_PROMPT
    graph_response_answer_prompt := DEFAULT_KG_RESPONSE_ANSWER_PROMPT
    predict := fun _ _ => .ok "GQ"
    apredict := fun _ _ => .ok "GQ"
    synthesize := fun _ _ => .ok "ANS"
    asynthesize := fun _ _ => .ok "ANS" }

/-- The same engine over the failing store. -/
def wFailEngine : KnowledgeGraphQueryEngine :=
  { wEngine with graph_store := failStore }

/-- An engine whose response synthesizer reports whether the evidence unit
it was handed carries the full-confidence score. -/
def scoreProbeEngine : KnowledgeGraphQueryEngine :=
  { wEngine with
    synthesize := fun _ nodes =>
      .ok (if nodes.any (fun nd => nd.score = some 1) then "SCORED" else "UNSCORED")
    asynthesize := fun _ nodes =>
      .ok (if nodes.any (fun nd => nd.score = some 1) then "SCORED" else "UNSCORED") }

/-- An engine wired to the spec-modelled production predictor over an
echoing completion. -/
def echoEngine : KnowledgeGraphQueryEngine :=
  { wEngine with
    predict := llmPredict Except.ok
    apredict := llmPredict Except.ok }

/-- Mock external collaborators for the mock predictor. -/
def wMockEnv : MockEnv :=
  { tokenizer := fun s => s.splitOn " "
    extractKeywords := fun s => s
    extractTriplets := fun s _ => s }

/-- The prompt kinds `MockLLMPredictor.predict` dispatches on (the
`if`/`elif` chain of `mock.py`); every other kind falls into the final
`else` that raises `ValueError`. -/
def handledPromptTypes : List PromptType :=
  [.summary, .tree_insert, .tree_select, .tree_select_multiple, .refine,
    .question_answer, .keyword_extract, .query_keyword_extract,
    .knowledge_triplet_extract, .custom]

/-- The span discipline of one successful call that opened its QUERY span
with fresh id `n`: exactly one QUERY and one RETRIEVE span are opened,
each is closed exactly once, each close presents the id its open
returned, and RETRIEVE is strictly nested inside QUERY (it opens after
QUERY opens and closes before QUERY closes). -/
def SuccessfulCallSpans (qb : QueryBundle) (n : Nat) (resp : String)
    (tr : List TraceEvent) : Prop :=
  ∃ gq rs,
    tr =
      [.eventStart .query [(.query_str, qb.query_str)] n,
       .eventStart .retrieve [(.query_str, gq)] (n + 1),
       .eventEnd .retrieve [(.response, rs)] (n + 1),
       .eventEnd .query [(.response, resp)] n] ∧
    (opensIds tr .query).length = 1 ∧
    (opensIds tr .retrieve).length = 1 ∧
    closesIds tr .query = opensIds tr .query ∧
    closesIds tr .retrieve = opensIds tr .retrieve ∧
    tr.findIdx (TraceEvent.isOpenOf .query) < tr.findIdx (TraceEvent.isOpenOf .retrieve) ∧
    tr.findIdx (TraceEvent.isOpenOf .retrieve) < tr.findIdx (TraceEvent.isCloseOf .retrieve) ∧
    tr.findIdx (TraceEvent.isCloseOf .retrieve) < tr.findIdx (TraceEvent.isCloseOf .query)

/-- The trace of one successful `wEngine` call. -/
def wTrace : List TraceEvent :=
  [.eventStart .query [(.query_str, "q")] 0,
   .eventStart .retrieve [(.query_str, "GQ")] 1,
   .eventEnd .retrieve [(.response, "RES")] 1,
   .eventEnd .query [(.response, "ANS")] 0]

/-! ## Theorems -/

/-- The state and trace of a call of `_query` in which every stage
succeeds. -/
theorem query_ok_trace (e : KnowledgeGraphQueryEngine) (qb : QueryBundle)
    (n : Nat) (resp : String) (st : CBState)
    (h : e.query qb ⟨n, []⟩ = (.ok resp, st)) :
    ∃ gq rs,
      st = ⟨n + 2,
        [.eventStart .query [(.query_str, qb.query_str)] n,
         .eventStart .retrieve [(.query_str, gq)] (n + 1),
         .eventEnd .retrieve [(.response, rs)] (n + 1),
         .eventEnd .query [(.response, resp)] n]⟩ := by
  rcases hg : e.generate_query qb.query_str with err | gq
  · simp [KnowledgeGraphQueryEngine.query, hg, CBState.on_event_start] at h
  · rcases hq : e.graph_store.query gq with err | rs
    · simp [KnowledgeGraphQueryEngine.query, hg, hq, CBState.on_event_start] at h
    · rcases hn : e.evidence_node qb.query_str gq rs with _ | node
      · simp [KnowledgeGraphQueryEngine.query, hg, hq, hn, CBState.on_event_start,
          CBState.on_event_end] at h
      · rcases hs : e.synthesize qb [node] with err | r
        · simp [KnowledgeGraphQueryEngine.query, hg, hq, hn, hs, CBState.on_event_start,
            CBState.on_event_end] at h
        · simp [KnowledgeGraphQueryEngine.query, hg, hq, hn, hs, CBState.on_event_start,
            CBState.on_event_end] at h
          exact ⟨gq, rs, by rw [← h.2, h.1]⟩

/-- The asynchronous path is the synchronous one run over the engine's
asynchronous capability fields. -/
theorem aquery_eq_query_swap (e : KnowledgeGraphQueryEngine) :
    e.aquery = KnowledgeGraphQueryEngine.query
      { e with predict := e.apredict, synthesize := e.asynthesize } := rfl

/-- A successful call satisfies the span discipline. -/
theorem query_ok_spans (e : KnowledgeGraphQueryEngine) (qb : QueryBundle)
    (n : Nat) (resp : String) (st : CBState)
    (h : e.query qb ⟨n, []⟩ = (.ok resp, st)) :
    SuccessfulCallSpans qb n resp st.events := by
  obtain ⟨gq, rs, hst⟩ := query_ok_trace e qb n resp st h
  subst hst
  refine ⟨gq, rs, rfl, ?_, ?_, ?_, ?_, ?_, ?_, ?_⟩ <;>
    simp [opensIds, closesIds, TraceEvent.isOpenOf, TraceEvent.isCloseOf, List.filterMap,
      List.findIdx_cons]

/-- C3: for every call of `_query` (or `_aquery`) in which all stages
succeed, exactly one QUERY span and exactly one RETRIEVE span are opened,
each is closed exactly once, each close presents the id returned by the
matching open unchanged, and RETRIEVE is strictly nested inside QUERY
(it opens after QUERY opens and closes before QUERY closes). -/
theorem C3_successful_call_span_discipline (e : KnowledgeGraphQueryEngine)
    (qb : QueryBundle) (n n' : Nat) (resp resp' : String) (st st' : CBState)
    (h : e.query qb ⟨n, []⟩ = (.ok resp, st))
    (h' : e.aquery qb ⟨n', []⟩ = (.ok resp', st')) :
    SuccessfulCallSpans qb n resp st.events ∧
    SuccessfulCallSpans qb n' resp' st'.events := by
  rw [aquery_eq_query_swap] at h'
  exact ⟨query_ok_spans e qb n resp st h, query_ok_spans _ qb n' resp' st' h'⟩

set_option maxRecDepth 16000 in
/-- Witness for C3 at the deterministic fixture engine. -/
theorem C3_successful_call_span_discipline_witness :
    SuccessfulCallSpans ⟨"q"⟩ 0 "ANS" wTrace ∧ SuccessfulCallSpans ⟨"q"⟩ 0 "ANS" wTrace := by
  exact C3_successful_call_span_discipline wEngine ⟨"q"⟩ 0 0 "ANS" "ANS"
    ⟨2, wTrace⟩ ⟨2, wTrace⟩ rfl rfl

/-- C1 (counterexample): at a concrete call whose backend execution step
`graph_store.query` raises, the caller observes the error while the trace
holds exactly the two span opens and no span close at all — the RETRIEVE
span is not closed with an error payload and the QUERY span is not closed
either, contradicting the claim. -/
theorem C1_claim_counterexample :
    wFailEngine.query ⟨"q"⟩ ⟨0, []⟩ =
      (.error "boom",
        ⟨2, [.eventStart .query [(.query_str, "q")] 0,
             .eventStart .retrieve [(.query_str, "GQ")] 1]⟩) ∧
    List.filter TraceEvent.isClose (wFailEngine.query ⟨"q"⟩ ⟨0, []⟩).2.events = [] ∧
    closesIds (wFailEngine.query ⟨"q"⟩ ⟨0, []⟩).2.events .retrieve = [] ∧
    closesIds (wFailEngine.query ⟨"q"⟩ ⟨0, []⟩).2.events .query = [] ∧
    (wFailEngine.aquery ⟨"q"⟩ ⟨0, []⟩).1 = .error "boom" ∧
    List.filter TraceEvent.isClose (wFailEngine.aquery ⟨"q"⟩ ⟨0, []⟩).2.events = [] :=
  ⟨rfl, rfl, rfl, rfl, rfl, rfl⟩

/-- C1 (amended): for every call (`_query` or `_aquery`) in which the
backend execution step `graph_store.query` raises, the exception
propagates to the caller unchanged and no span opened for the call is
closed: the trace holds exactly the QUERY open and the RETRIEVE open, and
both spans remain open after the error crosses the orchestrator
boundary. -/
theorem C1_backend_error_leaves_spans_open (e : KnowledgeGraphQueryEngine)
    (qb : QueryBundle) (n : Nat) (gq err : String)
    (hg : e.generate_query qb.query_str = .ok gq)
    (hg' : e.agenerate_query qb.query_str = .ok gq)
    (hq : e.graph_store.query gq = .error err) :
    e.query qb ⟨n, []⟩ =
      (.error err,
        ⟨n + 2, [.eventStart .query [(.query_str, qb.query_str)] n,
                 .eventStart .retrieve [(.query_str, gq)] (n + 1)]⟩) ∧
    e.aquery qb ⟨n, []⟩ =
      (.error err,
        ⟨n + 2, [.eventStart .query [(.query_str, qb.query_str)] n,
                 .eventStart .retrieve [(.query_str, gq)] (n + 1)]⟩) ∧
    List.filter TraceEvent.isClose
      [.eventStart .query [(.query_str, qb.query_str)] n,
       .eventStart .retrieve [(.query_str, gq)] (n + 1)] = [] := by
  refine ⟨?_, ?_, rfl⟩
  · simp [KnowledgeGraphQueryEngine.query, hg, hq, CBState.on_event_start]
  · simp [KnowledgeGraphQueryEngine.aquery, hg', hq, CBState.on_event_start]

/-- Witness for the amended C1 at the failing fixture engine. -/
theorem C1_backend_error_leaves_spans_open_witness :
    wFailEngine.query ⟨"q"⟩ ⟨0, []⟩ =
      (.error "boom",
        ⟨2, [.eventStart .query [(.query_str, "q")] 0,
             .eventStart .retrieve [(.query_str, "GQ")] 1]⟩) ∧
    wFailEngine.aquery ⟨"q"⟩ ⟨0, []⟩ =
      (.error "boom",
        ⟨2, [.eventStart .query [(.query_str, "q")] 0,
             .eventStart .retrieve [(.query_str, "GQ")] 1]⟩) ∧
    List.filter TraceEvent.isClose
      [.eventStart .query [(.query_str, "q")] 0,
       .eventStart .retrieve [(.query_str, "GQ")] 1] = [] :=
  C1_backend_error_leaves_spans_open wFailEngine ⟨"q"⟩ 0 "GQ" "boom" rfl rfl rfl

/-- C2: over the same deterministic collaborator fixtures — an
asynchronous predictor that agrees with the synchronous one and an
asynchronous synthesizer that agrees with the synchronous one — `_aquery`
returns the same final answer as `_query` and records the identical span
event sequence, kinds, payloads and ids alike, on every query bundle and
tracer state. -/
theorem C2_async_matches_sync (e : KnowledgeGraphQueryEngine)
    (hp : e.apredict = e.predict) (hs : e.asynthesize = e.synthesize)
    (qb : QueryBundle) (st : CBState) :
    e.aquery qb st = e.query qb st := by
  rw [aquery_eq_query_swap, hp, hs]
  exact rfl

/-- Witness for C2 at the deterministic fixture engine. -/
theorem C2_async_matches_sync_witness :
    wEngine.aquery ⟨"q"⟩ ⟨0, []⟩ = wEngine.query ⟨"q"⟩ ⟨0, []⟩ :=
  C2_async_matches_sync wEngine rfl rfl ⟨"q"⟩ ⟨0, []⟩

set_option maxRecDepth 16000 in
/-- C4 (code bug): the source writes
`NodeWithScore(node=TextNode(text=..., score=1.0, metadata=...))` — the
`score` keyword is given to the inner `TextNode` constructor, which has
no score field, instead of to the `NodeWithScore` wrapper.  The evidence
unit handed to the response synthesizer therefore carries no score at all
(`score = none`), not the maximal confidence 1.0 the claim (and the spec)
state: a synthesizer that inspects the score of the single node it is
handed observes the absence on both the synchronous and the asynchronous
path. -/
theorem C4_score_dropped_by_textnode_constructor :
    (scoreProbeEngine.evidence_node "q" "GQ" "RES").map NodeWithScore.score =
      some none ∧
    (scoreProbeEngine.query ⟨"q"⟩ ⟨0, []⟩).1 = .ok "UNSCORED" ∧
    (scoreProbeEngine.aquery ⟨"q"⟩ ⟨0, []⟩).1 = .ok "UNSCORED" :=
  ⟨rfl, rfl, rfl⟩

/-- C5: construction is where configuration is validated.  A missing
storage context or a missing graph store binding raises at construction;
a graph store whose class is not in the class-to-kind registry raises at
construction; a graph store of a registered kind that has no dialect
prompt template registered (and no explicit synthesis prompt supplied)
raises at construction, before any query call can be made.  And whenever
construction succeeds, the dialect prompt is already fully resolved into
the engine — the supplied prompt or the registered template — so no
engine call ever consults the dialect mapping at runtime (`query`,
`aquery` and `generate_query` are functions of the constructed engine
alone and take no registry). -/
theorem C5_config_errors_at_construction (registry : List (String × GraphStoreType))
    (lp lap : Prompt → List (String × PyVal) → Except String String)
    (sy asy : QueryBundle → List NodeWithScore → Except String String)
    (gqsp grap : Option Prompt) (refresh : Bool)
    (gs1 gs2 : GraphStore) (kind : GraphStoreType)
    (h1 : (registry.find? (fun p => p.1 = gs1.className)).map (fun p => p.2) = none)
    (h2 : (registry.find? (fun p => p.1 = gs2.className)).map (fun p => p.2) = some kind)
    (h3 : (DEFAULT_NL2GRAPH_PROMPT_MAP.find? (fun p => p.1 = kind)).map (fun p => p.2) = none) :
    KnowledgeGraphQueryEngine.init registry lp lap sy asy none gqsp grap refresh =
      .error .missingStorageContext ∧
    KnowledgeGraphQueryEngine.init registry lp lap sy asy (some ⟨none⟩) gqsp grap refresh =
      .error .missingGraphStore ∧
    KnowledgeGraphQueryEngine.init registry lp lap sy asy (some ⟨some gs1⟩) gqsp grap refresh =
      .error (.unregisteredGraphStoreClass gs1.className) ∧
    KnowledgeGraphQueryEngine.init registry lp lap sy asy (some ⟨some gs2⟩) none grap refresh =
      .error (.missingDialectPrompt kind) ∧
    (∀ sc e, KnowledgeGraphQueryEngine.init registry lp lap sy asy sc gqsp grap refresh = .ok e →
      gqsp = some e.graph_query_synthesis_prompt ∨
        (DEFAULT_NL2GRAPH_PROMPT_MAP.find? (fun p => p.1 = e.graph_store_type)).map
          (fun p => p.2) = some e.graph_query_synthesis_prompt) := by
  refine ⟨rfl, rfl, ?_, ?_, ?_⟩
  · simp [KnowledgeGraphQueryEngine.init, h1]
  · simp [KnowledgeGraphQueryEngine.init, h2, h3]
  · rintro (_ | ⟨_ | gs⟩) e h
    · simp [KnowledgeGraphQueryEngine.init] at h
    · simp [KnowledgeGraphQueryEngine.init] at h
    · rcases hr : (registry.find? (fun p => p.1 = gs.className)).map (fun p => p.2) with _ | k
      · simp [KnowledgeGraphQueryEngine.init, hr] at h
      · rcases gqsp with _ | p
        · rcases hm : (DEFAULT_NL2GRAPH_PROMPT_MAP.find? (fun p => p.1 = k)).map (fun p => p.2)
            with _ | dp
          · simp [KnowledgeGraphQueryEngine.init, hr, hm] at h
          · right
            simp [KnowledgeGraphQueryEngine.init, hr, hm] at h
            rw [← h]
            simpa using hm
        · left
          simp [KnowledgeGraphQueryEngine.init, hr] at h
          rw [← h]

/-- Witness for C5 at the concrete registry and store fixtures. -/
theorem C5_config_errors_at_construction_witness :
    ((wRegistry.find? (fun p => p.1 = fancyStore.className)).map (fun p => p.2) = none) ∧
    ((wRegistry.find? (fun p => p.1 = simpleStore.className)).map (fun p => p.2) =
      some .simple) ∧
    ((DEFAULT_NL2GRAPH_PROMPT_MAP.find?
        (fun p => p.1 = GraphStoreType.simple)).map (fun p => p.2) = none) ∧
    (KnowledgeGraphQueryEngine.init wRegistry (fun _ _ => .ok "GQ") (fun _ _ => .ok "GQ")
        (fun _ _ => .ok "ANS") (fun _ _ => .ok "ANS") none none none false =
      .error .missingStorageContext ∧
    KnowledgeGraphQueryEngine.init wRegistry (fun _ _ => .ok "GQ") (fun _ _ => .ok "GQ")
        (fun _ _ => .ok "ANS") (fun _ _ => .ok "ANS") (some ⟨none⟩) none none false =
      .error .missingGraphStore ∧
    KnowledgeGraphQueryEngine.init wRegistry (fun _ _ => .ok "GQ") (fun _ _ => .ok "GQ")
        (fun _ _ => .ok "ANS") (fun _ _ => .ok "ANS") (some ⟨some fancyStore⟩) none none false =
      .error (.unregisteredGraphStoreClass fancyStore.className) ∧
    KnowledgeGraphQueryEngine.init wRegistry (fun _ _ => .ok "GQ") (fun _ _ => .ok "GQ")
        (fun _ _ => .ok "ANS") (fun _ _ => .ok "ANS") (some ⟨some simpleStore⟩) none none false =
      .error (.missingDialectPrompt .simple) ∧
    (∀ sc e, KnowledgeGraphQueryEngine.init wRegistry (fun _ _ => .ok "GQ") (fun _ _ => .ok "GQ")
        (fun _ _ => .ok "ANS") (fun _ _ => .ok "ANS") sc none none false = .ok e →
      (none : Option Prompt) = some e.graph_query_synthesis_prompt ∨
        (DEFAULT_NL2GRAPH_PROMPT_MAP.find? (fun p => p.1 = e.graph_store_type)).map
          (fun p => p.2) = some e.graph_query_synthesis_prompt)) :=
  ⟨rfl, rfl, rfl,
    C5_config_errors_at_construction wRegistry (fun _ _ => .ok "GQ") (fun _ _ => .ok "GQ")
      (fun _ _ => .ok "ANS") (fun _ _ => .ok "ANS") none none false
      fancyStore simpleStore .simple rfl rfl rfl⟩

set_option maxRecDepth 8000 in
/-- C6: evidence assembly is a pure function of its four inputs.  For
every question, generated query and backend result, on an engine with the
default answer-synthesis prompt, the assembled evidence unit's text is
exactly the answer-synthesis template with the `query_str`,
`kg_query_str` and `kg_response_str` slots replaced by the original
question, the generated query and the backend result, and its metadata
holds exactly the original question, the generated query, the backend
result and the schema snapshot. -/
theorem C6_evidence_assembly_pure (e : KnowledgeGraphQueryEngine)
    (h : e.graph_response_answer_prompt = DEFAULT_KG_RESPONSE_ANSWER_PROMPT)
    (qs gq rs : String) :
    e.evidence_node qs gq rs =
      some
        { node :=
            { text :=
                "\nThe original question is given below.\nThis question has been translated into a Graph Database query.\nBoth the Graph query and the response are given below.\nGiven the Graph Query response, synthesise a response to the original question.\n\nOriginal question: " ++
                  (qs ++ ("\nGraph query: " ++ (gq ++ ("\nGraph response: " ++
                    (rs ++ "\nResponse: \n")))))
              metadata :=
                [("query_str", qs), ("graph_store_query", gq),
                  ("graph_store_response", rs), ("graph_schema", e.graph_schema)] }
          score := none } := by
  rw [KnowledgeGraphQueryEngine.evidence_node, h]
  exact rfl

set_option maxRecDepth 8000 in
/-- Witness for C6 at concrete strings on the fixture engine. -/
theorem C6_evidence_assembly_pure_witness :
    wEngine.evidence_node "Q" "G" "R" =
      some
        { node :=
            { text :=
                "\nThe original question is given below.\nThis question has been translated into a Graph Database query.\nBoth the Graph query and the response are given below.\nGiven the Graph Query response, synthesise a response to the original question.\n\nOriginal question: " ++
                  ("Q" ++ ("\nGraph query: " ++ ("G" ++ ("\nGraph response: " ++
                    ("R" ++ "\nResponse: \n")))))
              metadata :=
                [("query_str", "Q"), ("graph_store_query", "G"),
                  ("graph_store_response", "R"), ("graph_schema", wEngine.graph_schema)] }
          score := none } :=
  C6_evidence_assembly_pure wEngine rfl "Q" "G" "R"

set_option maxRecDepth 32000 in
/-- C7: for every question, `generate_query` (and `agenerate_query`) over
the production completion capability fills the dialect template's
`schema` and `query_str` slots with the cached schema snapshot and the
question, invokes the completion on the filled prompt, and returns the
completion's output unmodified — no post-parsing, trimming or validation
is applied before backend execution. -/
theorem C7_generate_query_fills_and_returns_raw (complete : String → Except String String)
    (e : KnowledgeGraphQueryEngine)
    (hp : e.predict = llmPredict complete)
    (hap : e.apredict = llmPredict complete)
    (hq : e.graph_query_synthesis_prompt = DEFAULT_NEBULAGRAPH_NL2CYPHER_PROMPT)
    (q : String) :
    e.generate_query q =
      complete
        ("\nGenerate NebulaGraph query from natural language.\nUse only the provided relationship types and properties in the schema.\nDo not use any other relationship types or properties that are not provided.\nSchema:\n---\n" ++
          (e.graph_schema ++ ("\n---\nNote: NebulaGraph speaks a dialect of Cypher, comparing to standard Cypher:\n\n1. it uses double equals sign for comparison: `==` rather than `=`\n2. it needs explicit label specification when referring to node properties, i.e.\nv is a variable of a node, and we know its label is Foo, v.`foo`.name is correct\nwhile v.name is not.\n\nFor example, see this diff between standard and NebulaGraph Cypher dialect:\n```diff\n< MATCH (p:person)-[:directed]->(m:movie) WHERE m.name = \x27The Godfather\x27\n< RETURN p.name;\n---\n> MATCH (p:`person`)-[:directed]->(m:`movie`) WHERE m.`movie`.`name` == \x27The Godfather\x27\n> RETURN p.`person`.`name`;\n```\n\nQuestion: " ++
            (q ++ "\n\nNebulaGraph Cypher dialect query:\n")))) ∧
    e.agenerate_query q =
      complete
        ("\nGenerate NebulaGraph query from natural language.\nUse only the provided relationship types and properties in the schema.\nDo not use any other relationship types or properties that are not provided.\nSchema:\n---\n" ++
          (e.graph_schema ++ ("\n---\nNote: NebulaGraph speaks a dialect of Cypher, comparing to standard Cypher:\n\n1. it uses double equals sign for comparison: `==` rather than `=`\n2. it needs explicit label specification when referring to node properties, i.e.\nv is a variable of a node, and we know its label is Foo, v.`foo`.name is correct\nwhile v.name is not.\n\nFor example, see this diff between standard and NebulaGraph Cypher dialect:\n```diff\n< MATCH (p:person)-[:directed]->(m:movie) WHERE m.name = \x27The Godfather\x27\n< RETURN p.name;\n---\n> MATCH (p:`person`)-[:directed]->(m:`movie`) WHERE m.`movie`.`name` == \x27The Godfather\x27\n> RETURN p.`person`.`name`;\n```\n\nQuestion: " ++
            (q ++ "\n\nNebulaGraph Cypher dialect query:\n")))) := by
  have hfmt : DEFAULT_NEBULAGRAPH_NL2CYPHER_PROMPT.format
      [("query_str", .str q), ("schema", .str e.graph_schema)] =
      some
        ("\nGenerate NebulaGraph query from natural language.\nUse only the provided relationship types and properties in the schema.\nDo not use any other relationship types or properties that are not provided.\nSchema:\n---\n" ++
          (e.graph_schema ++ ("\n---\nNote: NebulaGraph speaks a dialect of Cypher, comparing to standard Cypher:\n\n1. it uses double equals sign for comparison: `==` rather than `=`\n2. it needs explicit label specification when referring to node properties, i.e.\nv is a variable of a node, and we know its label is Foo, v.`foo`.name is correct\nwhile v.name is not.\n\nFor example, see this diff between standard and NebulaGraph Cypher dialect:\n```diff\n< MATCH (p:person)-[:directed]->(m:movie) WHERE m.name = \x27The Godfather\x27\n< RETURN p.name;\n---\n> MATCH (p:`person`)-[:directed]->(m:`movie`) WHERE m.`movie`.`name` == \x27The Godfather\x27\n> RETURN p.`person`.`name`;\n```\n\nQuestion: " ++
            (q ++ "\n\nNebulaGraph Cypher dialect query:\n")))) := rfl
  constructor
  · rw [KnowledgeGraphQueryEngine.generate_query, hp, hq]
    simp [llmPredict, hfmt]
    exact rfl
  · rw [KnowledgeGraphQueryEngine.agenerate_query, hap, hq]
    simp [llmPredict, hfmt]
    exact rfl

set_option maxRecDepth 32000 in
/-- Witness for C7 on the echoing completion fixture. -/
theorem C7_generate_query_fills_and_returns_raw_witness :
    echoEngine.generate_query "Q" =
      .ok
        ("\nGenerate NebulaGraph query from natural language.\nUse only the provided relationship types and properties in the schema.\nDo not use any other relationship types or properties that are not provided.\nSchema:\n---\n" ++
          ("SCHEMA" ++ ("\n---\nNote: NebulaGraph speaks a dialect of Cypher, comparing to standard Cypher:\n\n1. it uses double equals sign for comparison: `==` rather than `=`\n2. it needs explicit label specification when referring to node properties, i.e.\nv is a variable of a node, and we know its label is Foo, v.`foo`.name is correct\nwhile v.name is not.\n\nFor example, see this diff between standard and NebulaGraph Cypher dialect:\n```diff\n< MATCH (p:person)-[:directed]->(m:movie) WHERE m.name = \x27The Godfather\x27\n< RETURN p.name;\n---\n> MATCH (p:`person`)-[:directed]->(m:`movie`) WHERE m.`movie`.`name` == \x27The Godfather\x27\n> RETURN p.`person`.`name`;\n```\n\nQuestion: " ++
            ("Q" ++ "\n\nNebulaGraph Cypher dialect query:\n")))) ∧
    echoEngine.agenerate_query "Q" =
      .ok
        ("\nGenerate NebulaGraph query from natural language.\nUse only the provided relationship types and properties in the schema.\nDo not use any other relationship types or properties that are not provided.\nSchema:\n---\n" ++
          ("SCHEMA" ++ ("\n---\nNote: NebulaGraph speaks a dialect of Cypher, comparing to standard Cypher:\n\n1. it uses double equals sign for comparison: `==` rather than `=`\n2. it needs explicit label specification when referring to node properties, i.e.\nv is a variable of a node, and we know its label is Foo, v.`foo`.name is correct\nwhile v.name is not.\n\nFor example, see this diff between standard and NebulaGraph Cypher dialect:\n```diff\n< MATCH (p:person)-[:directed]->(m:movie) WHERE m.name = \x27The Godfather\x27\n< RETURN p.name;\n---\n> MATCH (p:`person`)-[:directed]->(m:`movie`) WHERE m.`movie`.`name` == \x27The Godfather\x27\n> RETURN p.`person`.`name`;\n```\n\nQuestion: " ++
            ("Q" ++ "\n\nNebulaGraph Cypher dialect query:\n")))) :=
  C7_generate_query_fills_and_returns_raw Except.ok echoEngine rfl rfl rfl "Q"

/-- C8: the schema is fetched from the bound graph store at construction,
with the refresh flag passed through, and every later consumer observes
that construction-time snapshot: `generate_query` and `agenerate_query`
hand the cached `graph_schema` to the predictor, the evidence unit's
metadata carries it, and replacing the store's `get_schema` behaviour
after construction changes nothing about `query` or `aquery` — no call
ever fetches the schema again. -/
theorem C8_schema_snapshot_at_construction (registry : List (String × GraphStoreType))
    (lp lap : Prompt → List (String × PyVal) → Except String String)
    (sy asy : QueryBundle → List NodeWithScore → Except String String)
    (sc : Option StorageContext) (gqsp grap : Option Prompt) (refresh : Bool)
    (e : KnowledgeGraphQueryEngine)
    (h : KnowledgeGraphQueryEngine.init registry lp lap sy asy sc gqsp grap refresh = .ok e) :
    (∃ scv gs, sc = some scv ∧ scv.graph_store = some gs ∧ e.graph_store = gs ∧
      e.graph_schema = gs.get_schema refresh) ∧
    (∀ q, e.generate_query q = e.predict e.graph_query_synthesis_prompt
        [("query_str", .str q), ("schema", .str e.graph_schema)]) ∧
    (∀ q, e.agenerate_query q = e.apredict e.graph_query_synthesis_prompt
        [("query_str", .str q), ("schema", .str e.graph_schema)]) ∧
    (∀ qs gq rs nd, e.evidence_node qs gq rs = some nd →
      nd.node.metadata.lookup "graph_schema" = some e.graph_schema) ∧
    (∀ f qb st,
      ({ e with graph_store := { e.graph_store with get_schema := f } }
        : KnowledgeGraphQueryEngine).query qb st = e.query qb st ∧
      ({ e with graph_store := { e.graph_store with get_schema := f } }
        : KnowledgeGraphQueryEngine).aquery qb st = e.aquery qb st) := by
  refine ⟨?_, fun q => rfl, fun q => rfl, ?_, fun f qb st => ⟨rfl, rfl⟩⟩
  · rcases sc with _ | scv
    · simp [KnowledgeGraphQueryEngine.init] at h
    · rcases hgs : scv.graph_store with _ | gs
      · simp [KnowledgeGraphQueryEngine.init, hgs] at h
      · refine ⟨scv, gs, rfl, hgs, ?_, ?_⟩ <;>
        · rcases hr : (registry.find? (fun p => p.1 = gs.className)).map (fun p => p.2)
            with _ | k
          · simp [KnowledgeGraphQueryEngine.init, hgs, hr] at h
          · rcases gqsp with _ | p
            · rcases hm : (DEFAULT_NL2GRAPH_PROMPT_MAP.find? (fun p => p.1 = k)).map
                  (fun p => p.2) with _ | dp
              · simp [KnowledgeGraphQueryEngine.init, hgs, hr, hm] at h
              · simp [KnowledgeGraphQueryEngine.init, hgs, hr, hm] at h
                rw [← h]
            · simp [KnowledgeGraphQueryEngine.init, hgs, hr] at h
              rw [← h]
  · intro qs gq rs nd hnd
    rw [KnowledgeGraphQueryEngine.evidence_node] at hnd
    rcases hf : e.graph_response_answer_prompt.format
        [("query_str", .str qs), ("kg_query_str", .str gq), ("kg_response_str", .str rs)]
      with _ | ps
    · rw [hf] at hnd
      simp at hnd
    · rw [hf] at hnd
      simp at hnd
      rw [← hnd]
      rfl

/-- Witness for C8 at a concrete construction that lands on the fixture
engine. -/
theorem C8_schema_snapshot_at_construction_witness :
    (∃ scv gs, (some (⟨some okStore⟩ : StorageContext) : Option StorageContext) = some scv ∧
      scv.graph_store = some gs ∧ wEngine.graph_store = gs ∧
      wEngine.graph_schema = gs.get_schema false) ∧
    (∀ q, wEngine.generate_query q = wEngine.predict wEngine.graph_query_synthesis_prompt
        [("query_str", .str q), ("schema", .str wEngine.graph_schema)]) ∧
    (∀ q, wEngine.agenerate_query q = wEngine.apredict wEngine.graph_query_synthesis_prompt
        [("query_str", .str q), ("schema", .str wEngine.graph_schema)]) ∧
    (∀ qs gq rs nd, wEngine.evidence_node qs gq rs = some nd →
      nd.node.metadata.lookup "graph_schema" = some wEngine.graph_schema) ∧
    (∀ f qb st,
      ({ wEngine with graph_store := { wEngine.graph_store with get_schema := f } }
        : KnowledgeGraphQueryEngine).query qb st = wEngine.query qb st ∧
      ({ wEngine with graph_store := { wEngine.graph_store with get_schema := f } }
        : KnowledgeGraphQueryEngine).aquery qb st = wEngine.aquery qb st) :=
  C8_schema_snapshot_at_construction wRegistry (fun _ _ => .ok "GQ") (fun _ _ => .ok "GQ")
    (fun _ _ => .ok "ANS") (fun _ _ => .ok "ANS") (some ⟨some okStore⟩) none none false
    wEngine rfl

/-- C9: the mock completion capability raises a distinguishable error on
an unknown prompt kind: for every prompt whose kind is outside the
handled dispatch set (and whose template renders, so the dispatch is
reached), `MockLLMPredictor.predict` raises
`ValueError("Invalid prompt type.")` rather than returning a string; and
`apredict` behaves identically to `predict` on every input. -/
theorem C9_mock_predict_unknown_kind (env : MockEnv) (m : MockLLMPredictor)
    (prompt : Prompt) (prompt_args : List (String × PyVal))
    (hfmt : (prompt.format prompt_args).isSome)
    (hun : prompt.prompt_type ∉ handledPromptTypes) :
    MockLLMPredictor.predict env m prompt prompt_args = .error "Invalid prompt type." ∧
    (∀ (env' : MockEnv) (m' : MockLLMPredictor) (p' : Prompt)
        (a' : List (String × PyVal)),
      MockLLMPredictor.apredict env' m' p' a' = MockLLMPredictor.predict env' m' p' a') := by
  refine ⟨?_, fun env' m' p' a' => rfl⟩
  obtain ⟨s, hs⟩ := Option.isSome_iff_exists.mp hfmt
  rcases htype : prompt.prompt_type <;>
    simp [htype, handledPromptTypes] at hun <;>
    simp [MockLLMPredictor.predict, hs, htype] <;>
    exact rfl

set_option maxRecDepth 32000 in
/-- Witness for C9: the engine's own NL-to-graph-query prompt kind
(`TEXT_TO_GRAPH_QUERY`) is outside the mock dispatch set. -/
theorem C9_mock_predict_unknown_kind_witness :
    MockLLMPredictor.predict wMockEnv ⟨256⟩ DEFAULT_NEBULAGRAPH_NL2CYPHER_PROMPT
      [("query_str", .str "Q"), ("schema", .str "S")] = .error "Invalid prompt type." ∧
    (∀ (env' : MockEnv) (m' : MockLLMPredictor) (p' : Prompt)
        (a' : List (String × PyVal)),
      MockLLMPredictor.apredict env' m' p' a' = MockLLMPredictor.predict env' m' p' a') :=
  C9_mock_predict_unknown_kind wMockEnv ⟨256⟩ DEFAULT_NEBULAGRAPH_NL2CYPHER_PROMPT
    [("query_str", .str "Q"), ("schema", .str "S")] (by exact rfl) (by decide)

/-- C10 (counterexample): with `max_tokens = 0` — set, not `None` — the
claim demands a string of exactly zero space-joined repetitions of
`"text"` (the empty string), but `MockLLM.complete` returns the prompt
verbatim, because the guard is Python truthiness (`if self.max_tokens`),
which treats `0` like `None`. -/
theorem C10_claim_counterexample :
    (MockLLM.complete ⟨some 0⟩ "hello").text = "hello" ∧
    joinReplicate "text" 0 = "" ∧
    ("hello" : String) ≠ "" :=
  ⟨rfl, rfl, by decide⟩

/-- C10 (amended): for every prompt string, `MockLLM.complete` returns the
prompt text verbatim when `max_tokens` is unset (`None`) or zero (Python
falsiness), and otherwise returns exactly `max_tokens` space-joined
repetitions of the token `"text"` (a non-positive count yields the empty
string); the call is deterministic and total. -/
theorem C10_complete_prompt_or_token_budget (m : MockLLM) (p : String) :
    (m.max_tokens = none ∨ m.max_tokens = some 0 → m.complete p = ⟨p⟩) ∧
    (∀ n : Int, m.max_tokens = some n → n ≠ 0 →
      m.complete p = ⟨joinReplicate "text" n.toNat⟩) := by
  constructor
  · rintro (hm | hm) <;> simp [MockLLM.complete, MockLLM.maxTokensTruthy, hm]
  · intro n hm hn
    simp [MockLLM.complete, MockLLM.maxTokensTruthy, MockLLM.generate_text, hm, hn]

/-- Witness for the amended C10 on both branches. -/
theorem C10_complete_prompt_or_token_budget_witness :
    MockLLM.complete ⟨none⟩ "hi" = ⟨"hi"⟩ ∧
    MockLLM.complete ⟨some 3⟩ "hi" = ⟨"text text text"⟩ :=
  ⟨(C10_complete_prompt_or_token_budget ⟨none⟩ "hi").1 (Or.inl rfl),
    (C10_complete_prompt_or_token_budget ⟨some 3⟩ "hi").2 3 rfl (by decide)⟩
